import Mathlib

/-!
Verification of the per-call streaming orchestration core of the
PPASSD/ai-call-server repository (a Twilio <-> Deepgram <-> Gemini <->
ElevenLabs voice-agent relay).

The definitions below are a shallow embedding of `src/server.js` (the main
variant) and, where a claim cites it, of the Gemini-chunk variant found in
`src/unnamed/part_000`.  Byte buffers are `List Nat` (each entry < 256 in
the intended use), wire messages are explicit structures, and the
asynchronous JavaScript handlers are embedded as functions from the
environment's responses to the list of externally visible actions they
perform, with `await` boundaries made explicit where a claim is about
interleaving.  Definitions come first, all theorems follow.
-/

set_option maxRecDepth 8000

namespace AICall

/-! ## Audio frames and wire messages -/

/-- Constant `FRAME = 160` — the carrier frame size in bytes (20 ms at
8 kHz mu-law), the constant `const FRAME = 160` of `sendAudio` in
`src/server.js`. -/
def FRAME : Nat := 160

/-- The padding / silence byte `0xff` used by `Buffer.alloc(…, 0xff)` in
`sendAudio`. -/
def padByte : Nat := 0xff

/-- The standard base64 alphabet. -/
def base64Table : List Char :=
  "ABCDEFGHIJKLMNOPQRSTUVWXYZabcdefghijklmnopqrstuvwxyz0123456789+/".toList

/-- The character the base64 alphabet assigns to a 6-bit value. -/
def base64Char (n : Nat) : Char := base64Table.getD n 'A'

/-- Base64 encoding of a byte list, modelling JavaScript's
`buffer.toString("base64")`. -/
def base64Encode : List Nat → List Char
  | [] => []
  | [b1] =>
    [base64Char (b1 / 4), base64Char (b1 % 4 * 16), '=', '=']
  | [b1, b2] =>
    [base64Char (b1 / 4), base64Char (b1 % 4 * 16 + b2 / 16),
     base64Char (b2 % 16 * 4), '=']
  | b1 :: b2 :: b3 :: rest =>
    base64Char (b1 / 4) :: base64Char (b1 % 4 * 16 + b2 / 16) ::
    base64Char (b2 % 16 * 4 + b3 / 64) :: base64Char (b3 % 64) ::
    base64Encode rest

/-- One outbound carrier message, the JSON object built in `sendAudio`
(`src/server.js` lines 171 and 179), carrying an event tag, the stream
identifier, the base64 payload and the direction tag.  The `part_000`
variant omits `streamSid` and `track`, hence the `Option`s. -/
structure MediaMsg where
  event : String
  streamSid : Option String
  payload : List Char
  track : Option String
deriving DecidableEq, Repr

/-! ## The audio reframer

The chunking loop of `sendAudio` (`src/server.js` lines 175–181) cuts the
converted mu-law buffer into `FRAME`-byte chunks, padding the last chunk
with `0xff`, via `mulaw.slice(i, i + FRAME)` for `i = 0, FRAME, 2·FRAME, …`
and a concat with `Buffer.alloc(FRAME - chunk.length, 0xff)` when the
chunk is short. -/

/-- Padding step of the loop: `if (chunk.length < FRAME)` the chunk is
extended with `FRAME - chunk.length` bytes of `0xff`. -/
def padFrame (chunk : List Nat) : List Nat :=
  if chunk.length < FRAME then chunk ++ List.replicate (FRAME - chunk.length) padByte
  else chunk

/-- Structural-recursion engine for the chunking loop: `fuel` bounds the
number of frames still to cut (the loop advances by `FRAME ≥ 1` bytes per
iteration, so the input length is enough fuel). -/
def reframeFuel : Nat → List Nat → List (List Nat)
  | _, [] => []
  | 0, _ :: _ => []
  | fuel + 1, a :: l =>
    padFrame ((a :: l).take FRAME) :: reframeFuel fuel ((a :: l).drop FRAME)

/-- The frame sequence produced by the chunking loop of `sendAudio`. -/
def reframe (raw : List Nat) : List (List Nat) := reframeFuel raw.length raw

/-! ## Sending audio to the carrier

Function `sendAudio(ws, buffer)` (`src/server.js` lines 160–184): a
readiness guard, conversion to mu-law via ffmpeg (modelled as a parameter
function `convert`), five priming silence frames, then the reframed audio
frames, each send followed by `await sleep(20)`. -/

/-- Silence buffer `Buffer.alloc(FRAME, 0xff)` — one 160-byte frame of
mu-law silence. -/
def silenceFrame : List Nat := List.replicate FRAME padByte

/-- The JSON message sent for one frame:
`{ event: "media", streamSid: ws.streamSid, media: { payload: chunk.toString("base64"), track: "outbound" } }`. -/
def mkMediaMsg (sid : String) (frame : List Nat) : MediaMsg :=
  { event := "media", streamSid := some sid,
    payload := base64Encode frame, track := some "outbound" }

/-- The full message sequence `sendAudio` emits once past its guard:
five priming silence frames, then the reframed audio. -/
def sendAudioMsgs (sid : String) (mulaw : List Nat) : List MediaMsg :=
  List.replicate 5 (mkMediaMsg sid silenceFrame)
    ++ (reframe mulaw).map (mkMediaMsg sid)

/-- Function `sendAudio` with its guard
`if (!ws.streamSid || ws.readyState !== WebSocket.OPEN || !buffer) return;`.
Here `convert` stands for `convertToMulaw` (external ffmpeg). -/
def sendAudio (convert : List Nat → List Nat) (streamSid : Option String)
    (wsOpen : Bool) (buffer : Option (List Nat)) : List MediaMsg :=
  match streamSid with
  | none => []
  | some sid =>
    if !wsOpen then []
    else
      match buffer with
      | none => []
      | some buf => sendAudioMsgs sid (convert buf)

/-! ## Mid-send carrier close (claim C4)

The socket is modelled as open for the first `openFor` send steps.  The
priming loop sends unconditionally (the ws library transmits nothing on a
non-open socket); the main loop runs
`if (ws.readyState !== WebSocket.OPEN) break;` before each send. -/

/-- One `ws.send` call at step `step`: it transmits only while the socket is
still open. -/
def attemptedSend (openFor step : Nat) (m : MediaMsg) : List MediaMsg :=
  if step < openFor then [m] else []

/-- The transmissions of the priming loop (steps 0–4, no readiness check). -/
def primingTransmitted (openFor : Nat) (sid : String) : List MediaMsg :=
  ((List.range 5).map fun i =>
    attemptedSend openFor i (mkMediaMsg sid silenceFrame)).flatten

/-- The transmissions of the main frame loop starting at send step `step`:
it breaks at the frame boundary as soon as the socket is not open. -/
def mainLoopTransmitted (openFor : Nat) (sid : String) :
    List (List Nat) → Nat → List MediaMsg
  | [], _ => []
  | f :: fs, step =>
    if step < openFor then
      mkMediaMsg sid f :: mainLoopTransmitted openFor sid fs (step + 1)
    else []

/-- All frames actually transmitted by one `sendAudio` run whose socket
closes after `openFor` send steps. -/
def framesTransmitted (openFor : Nat) (sid : String) (mulaw : List Nat) :
    List MediaMsg :=
  primingTransmitted openFor sid
    ++ mainLoopTransmitted openFor sid (reframe mulaw) 5

/-- The session's upstream connections; `dgClosed` is the state of the
Deepgram (transcription) socket. -/
structure Conns where
  dgClosed : Bool
deriving DecidableEq

/-- The `ws.on("close")` handler (`src/server.js` lines 263–266): its
body closes the Deepgram connection (`dg.close()`). -/
def onWsClose (c : Conns) : Conns := { c with dgClosed := true }

/-! ## Transcription events and the Deepgram message handler

The `dg.on("message")` handler (`src/server.js` lines 243–261) parses the
event, returns early unless `data.is_final` holds and the trimmed
transcript is non-empty, then sets `aiSpeaking = true`, awaits
`callGemini(transcript)`, on a truthy reply awaits `tts(reply)`, on a
truthy buffer awaits `sendAudio(ws, replyBuffer)`, and finally resets
`aiSpeaking = false`. -/

/-- The whitespace test of JavaScript's `String.prototype.trim`. -/
def isJsWhitespace (c : Char) : Bool :=
  c = ' ' || c = '\t' || c = '\n' || c = '\r'

/-- JavaScript's `.trim()`: strip whitespace from both ends. -/
def jsTrim (s : String) : String :=
  String.mk (((s.data.dropWhile isJsWhitespace).reverse.dropWhile isJsWhitespace).reverse)

/-- One Deepgram transcription event: the fields the handler reads
(`data.is_final`, `data.channel?.alternatives?.[0]?.transcript`), plus its
arrival time in milliseconds (never read by the code). -/
structure DgEvent where
  isFinal : Bool
  transcript : Option String
  atMs : Nat
deriving DecidableEq

/-- The handler's early-return filter: it acts only on final events whose
trimmed transcript is non-empty, and acts on that trimmed text. -/
def dgDecision (e : DgEvent) : Option String :=
  if !e.isFinal then none
  else
    match e.transcript with
    | none => none
    | some t =>
      if jsTrim t = "" then none else some (jsTrim t)

/-- The texts acted upon (one Gemini pipeline invocation each) for a
sequence of transcription events. -/
def utterances (es : List DgEvent) : List String := es.filterMap dgDecision

/-- The session's external capabilities: Gemini generation (HTTP result:
error, or a response whose extracted text field may be absent),
ElevenLabs synthesis (error or audio bytes), and ffmpeg conversion. -/
structure GenEnv where
  gen : String → Except Unit (Option String)
  tts : String → Except Unit (List Nat)
  convert : List Nat → List Nat

/-- Function `callGemini` (`src/server.js` lines 189–204): network errors
are caught and become `null`; `r.data?.…?.text || null` maps an absent or
empty text to `null`. -/
def callGemini (resp : Except Unit (Option String)) : Option String :=
  match resp with
  | Except.error _ => none
  | Except.ok none => none
  | Except.ok (some s) => if s = "" then none else some s

/-- Function `tts` (`src/server.js` lines 116–129): network errors are
caught and become `null`; a successful response always yields a buffer. -/
def ttsResult (resp : Except Unit (List Nat)) : Option (List Nat) :=
  match resp with
  | Except.error _ => none
  | Except.ok b => some b

/-- The externally visible atomic actions of the session's handlers. -/
inductive Action where
  | setSpeaking (b : Bool)
  | genCall (prompt : String)
  | ttsCall (text : String)
  | frame (m : MediaMsg)
  | dgForward (payload : List Nat)
deriving DecidableEq, Repr

/-- The frame sends of one `sendAudio` call, one await-separated segment per
frame (each send is followed by `await sleep(20)`). -/
def sendAudioSegs (convert : List Nat → List Nat) (sid : Option String)
    (wsOpen : Bool) (buf : List Nat) : List (List Action) :=
  (sendAudio convert sid wsOpen (some buf)).map fun m => [Action.frame m]

/-- The pipeline body of the Deepgram handler, for decided text `t`, as a
list of await-separated atomic segments (the JavaScript event loop can
interleave other handlers only at the `await` boundaries between
segments). -/
def dgPipelineSegs (env : GenEnv) (sid : Option String) (wsOpen : Bool)
    (t : String) : List (List Action) :=
  [Action.setSpeaking true, Action.genCall t] ::
    (match callGemini (env.gen t) with
     | none => [[Action.setSpeaking false]]
     | some reply =>
       [Action.ttsCall reply] ::
         (match ttsResult (env.tts reply) with
          | none => [[Action.setSpeaking false]]
          | some buf =>
            sendAudioSegs env.convert sid wsOpen buf
              ++ [[Action.setSpeaking false]]))

/-- The Deepgram message handler's segments: nothing on filtered events,
the pipeline otherwise. -/
def dgSegments (env : GenEnv) (sid : Option String) (wsOpen : Bool)
    (e : DgEvent) : List (List Action) :=
  match dgDecision e with
  | none => []
  | some t => dgPipelineSegs env sid wsOpen t

/-- The Deepgram message handler's complete action sequence. -/
def dgHandler (env : GenEnv) (sid : Option String) (wsOpen : Bool)
    (e : DgEvent) : List Action :=
  (dgSegments env sid wsOpen e).flatten

/-! ## The carrier (Twilio) message handler

The `ws.on("message")` handler is at `src/server.js` lines 222–241. -/

/-- One carrier message: the fields the handler reads (`data.event`,
`data.start?.streamSid`, `data.media.payload` base64-decoded). -/
structure WsEvent where
  event : String
  startSid : Option String
  mediaPayload : Option (List Nat)
deriving DecidableEq

/-- The session state the handlers share: `ws.streamSid`, the closure
variable `aiSpeaking`, and the readiness of the two sockets. -/
structure SessState where
  streamSid : Option String
  aiSpeaking : Bool
  dgOpen : Bool
  wsOpen : Bool
deriving DecidableEq

/-- The fixed greeting text of the `start` branch. -/
def greetingText : String := "Hello! I am ready to chat."

/-- The greeting part of the `start` branch:
`const greeting = await tts("Hello! I am ready to chat."); if (greeting) await sendAudio(ws, greeting);`. -/
def greetingActs (env : GenEnv) (sid : Option String) (wsOpen : Bool) :
    List Action :=
  Action.ttsCall greetingText ::
    (match ttsResult (env.tts greetingText) with
     | none => []
     | some buf => (sendAudio env.convert sid wsOpen (some buf)).map Action.frame)

/-- The `start` branch of the carrier message handler: it records
`ws.streamSid = data.start?.streamSid`, plays the greeting under
`aiSpeaking = true` (the greeting's `sendAudio` already sees the new
stream identifier), and resets the flag at the end. -/
def wsStart (env : GenEnv) (s : SessState) (e : WsEvent) :
    SessState × List Action :=
  if e.event = "start" then
    ({ s with streamSid := e.startSid, aiSpeaking := false },
     Action.setSpeaking true ::
       (greetingActs env e.startSid s.wsOpen ++ [Action.setSpeaking false]))
  else (s, [])

/-- The `media` branch: the payload is forwarded to Deepgram only when
`data.event === "media" && !aiSpeaking && dg.readyState === WebSocket.OPEN`;
otherwise it is dropped. -/
def wsMedia (s : SessState) (e : WsEvent) : List Action :=
  if e.event = "media" && !s.aiSpeaking && s.dgOpen then
    match e.mediaPayload with
    | none => []
    | some p => [Action.dgForward p]
  else []

/-- The carrier message handler, `ws.on("message")`: the `start` block runs
first (updating the session state), then the `media` check reads the
updated state. -/
def wsHandler (env : GenEnv) (s : SessState) (e : WsEvent) :
    SessState × List Action :=
  ((wsStart env s e).1, (wsStart env s e).2 ++ wsMedia (wsStart env s e).1 e)

/-- Processing a list of carrier events in arrival order, threading the
session state, and concatenating the emitted actions. -/
def collectSession (env : GenEnv) (s : SessState) : List WsEvent → List Action
  | [] => []
  | e :: es =>
    (wsHandler env s e).2 ++ collectSession env (wsHandler env s e).1 es

/-- Select the Deepgram-forward payload of an action, if any. -/
def isForward : Action → Option (List Nat)
  | Action.dgForward p => some p
  | _ => none

/-- The payloads forwarded to Deepgram within an action sequence. -/
def dgForwards (acts : List Action) : List (List Nat) :=
  acts.filterMap isForward

/-! ## Interleaving of asynchronous handlers

A JavaScript `async` handler runs atomically between `await`s; when several
handler invocations are pending, the event loop interleaves their
await-separated segments in some order that preserves each handler's own
segment order.  `Merge xs ys zs` says `zs` is such an interleaving of the
segment lists `xs` and `ys`. -/

inductive Merge {α : Type} : List α → List α → List α → Prop
  | nil : Merge [] [] []
  | left {x : α} {xs ys zs : List α} : Merge xs ys zs → Merge (x :: xs) ys (x :: zs)
  | right {y : α} {xs ys zs : List α} : Merge xs ys zs → Merge xs (y :: ys) (y :: zs)

/-! ## The `part_000` Gemini-chunk variant (claim C6)

In `src/unnamed/part_000` lines 296–303, the `geminiWS` `onChunk` callback
awaits `elevenLabsTTSBuffer(replyChunk)`, returns if the buffer is falsy,
and otherwise sends
`ws.send(JSON.stringify({ event: 'media', media: { payload: base64Audio } }))`
— an outbound media message with no `streamSid` (and no track). -/

/-- The `onChunk` callback of the `part_000` variant. -/
def part000OnChunk (ttsBuffer : Option (List Nat)) : List MediaMsg :=
  match ttsBuffer with
  | none => []
  | some buf =>
    [{ event := "media", streamSid := none,
       payload := base64Encode buf, track := none }]

/-- Send times: frame `i` of a `sendAudio` run goes out at `20·i` ms
(each send is followed by `await sleep(20)`). -/
def sendTimes (sid : String) (mulaw : List Nat) : List Nat :=
  (List.range (sendAudioMsgs sid mulaw).length).map fun i => 20 * i

/-! ## Concrete inputs used by counterexamples and witnesses -/

/-- First of two identical final transcription events, at t = 0 ms. -/
def ev3a : DgEvent := { isFinal := true, transcript := some "hello", atMs := 0 }

/-- Second identical final event, 200 ms later (inside any 900 ms window). -/
def ev3b : DgEvent := { isFinal := true, transcript := some "hello", atMs := 200 }

/-- Environment in which Gemini succeeds but returns empty text. -/
def env5 : GenEnv :=
  { gen := fun _ => Except.ok (some "")
    tts := fun _ => Except.ok []
    convert := fun b => b }

/-- A final event with surrounding whitespace in its transcript. -/
def ev5 : DgEvent := { isFinal := true, transcript := some " hi ", atMs := 0 }

/-- An all-false initial session state (no stream id yet, not speaking). -/
def sess0 : SessState :=
  { streamSid := none, aiSpeaking := false, dgOpen := true, wsOpen := true }

/-- Environment whose synthesis succeeds with one audio byte. -/
def env9 : GenEnv :=
  { gen := fun _ => Except.ok (some "ok")
    tts := fun _ => Except.ok [7]
    convert := fun b => b }

/-- A session state in which the agent is speaking. -/
def sessSpeaking : SessState :=
  { streamSid := some "SID1", aiSpeaking := true, dgOpen := true, wsOpen := true }

/-- A media event carrying one byte of caller audio. -/
def evMedia : WsEvent :=
  { event := "media", startSid := none, mediaPayload := some [9] }

/-- A start event carrying the stream identifier. -/
def evStart : WsEvent :=
  { event := "start", startSid := some "SID1", mediaPayload := none }

/-- Reply A's synthesized audio: one exact frame of byte 1. -/
def bufA : List Nat := List.replicate FRAME 1

/-- Reply B's synthesized audio: one exact frame of byte 2. -/
def bufB : List Nat := List.replicate FRAME 2

/-- An environment in which both utterances generate and synthesize
successfully. -/
def envC1 : GenEnv :=
  { gen := fun t => if t = "first" then Except.ok (some "Hi one")
                    else Except.ok (some "Hi two")
    tts := fun t => if t = "Hi one" then Except.ok bufA else Except.ok bufB
    convert := fun b => b }

/-- Utterance A's final transcription event. -/
def evA : DgEvent := { isFinal := true, transcript := some "first", atMs := 0 }

/-- Utterance B's final transcription event, arriving while reply A is in
flight. -/
def evB : DgEvent := { isFinal := true, transcript := some "second", atMs := 5000 }

/-- The await-separated segments of A's handler invocation. -/
def segsA : List (List Action) := dgSegments envC1 (some "SID1") true evA

/-- The await-separated segments of B's handler invocation. -/
def segsB : List (List Action) := dgSegments envC1 (some "SID1") true evB

/-- A valid event-loop schedule: A runs its first segment (up to the
generation call), then all of B runs, then the rest of A. -/
def trC1 : List (List Action) := segsA.take 1 ++ segsB ++ segsA.drop 1

/-! ## Basic lemmas about the reframer -/

theorem reframeFuel_nil (fuel : Nat) : reframeFuel fuel [] = [] := by
  cases fuel <;> rfl

theorem reframeFuel_congr :
    ∀ (fuel fuel' : Nat) (raw : List Nat),
      raw.length ≤ fuel → raw.length ≤ fuel' →
      reframeFuel fuel raw = reframeFuel fuel' raw := by
  intro fuel
  induction fuel with
  | zero =>
    intro fuel' raw h _
    have hraw : raw = [] := List.eq_nil_of_length_eq_zero (Nat.le_zero.mp h)
    subst hraw
    rw [reframeFuel_nil, reframeFuel_nil]
  | succ n ih =>
    intro fuel' raw h h'
    cases raw with
    | nil => rw [reframeFuel_nil, reframeFuel_nil]
    | cons a l =>
      cases fuel' with
      | zero => simp at h'
      | succ m =>
        show padFrame _ :: reframeFuel n _ = padFrame _ :: reframeFuel m _
        have hF : FRAME = 160 := rfl
        have hlen : ((a :: l).drop FRAME).length = (l.length + 1) - FRAME := by
          simp [List.length_drop]
        congr 1
        apply ih
        · rw [hlen]
          simp only [List.length_cons] at h
          omega
        · rw [hlen]
          simp only [List.length_cons] at h'
          omega

@[simp] theorem reframe_nil : reframe [] = [] := rfl

theorem reframe_cons (raw : List Nat) (h : raw ≠ []) :
    reframe raw = padFrame (raw.take FRAME) :: reframe (raw.drop FRAME) := by
  cases raw with
  | nil => exact absurd rfl h
  | cons a l =>
    show reframeFuel (l.length + 1) (a :: l) = _
    rw [reframeFuel]
    congr 1
    apply reframeFuel_congr
    · have hF : FRAME = 160 := rfl
      simp only [List.length_drop, List.length_cons]
      omega
    · exact Nat.le_refl _

/-- Strong induction along the chunking loop. -/
theorem reframe_induction (P : List Nat → Prop) (h0 : P ([] : List Nat))
    (hstep : ∀ raw : List Nat, raw ≠ [] → P (raw.drop FRAME) → P raw) :
    ∀ raw : List Nat, P raw := by
  suffices hs : ∀ (n : Nat) (raw : List Nat), raw.length ≤ n → P raw from
    fun raw => hs raw.length raw (Nat.le_refl _)
  intro n
  induction n with
  | zero =>
    intro raw hr
    have hraw : raw = [] := List.eq_nil_of_length_eq_zero (Nat.le_zero.mp hr)
    exact hraw ▸ h0
  | succ n ih =>
    intro raw hr
    cases raw with
    | nil => exact h0
    | cons a l =>
      refine hstep _ (by simp) (ih _ ?_)
      have hF : FRAME = 160 := rfl
      simp only [List.length_drop, List.length_cons]
      simp only [List.length_cons] at hr
      omega

theorem padFrame_length (chunk : List Nat) (h : chunk.length ≤ FRAME) :
    (padFrame chunk).length = FRAME := by
  unfold padFrame
  by_cases hlt : chunk.length < FRAME
  · simp [hlt, Nat.add_sub_cancel' (Nat.le_of_lt hlt)]
  · simp [hlt, Nat.le_antisymm h (Nat.le_of_not_lt hlt)]

theorem reframe_frame_length (raw : List Nat) :
    ∀ f ∈ reframe raw, f.length = FRAME := by
  induction raw using reframe_induction with
  | h0 => simp
  | hstep raw h ih =>
    rw [reframe_cons raw h]
    intro f hf
    rcases List.mem_cons.mp hf with hf | hf
    · subst hf
      exact padFrame_length _ (by simp)
    · exact ih f hf

/-- Concatenating the frames gives the input followed by the padding bytes of
the final frame: the output is the input plus some run of `padByte`s. -/
theorem reframe_join (raw : List Nat) :
    ∃ k, (reframe raw).flatten = raw ++ List.replicate k padByte := by
  induction raw using reframe_induction with
  | h0 => exact ⟨0, by simp⟩
  | hstep raw h ih =>
    rw [reframe_cons raw h]
    obtain ⟨k, hk⟩ := ih
    by_cases hle : raw.length ≤ FRAME
    · refine ⟨FRAME - raw.length, ?_⟩
      have hdrop : raw.drop FRAME = [] := by
        apply List.eq_nil_of_length_eq_zero
        simp [Nat.sub_eq_zero_of_le hle]
      have htake : raw.take FRAME = raw := List.take_of_length_le hle
      simp [hdrop, htake, padFrame]
      intro hnlt
      have : raw.length = FRAME := Nat.le_antisymm hle hnlt
      simp [this]
    · refine ⟨k, ?_⟩
      have hlen : (raw.take FRAME).length = FRAME := by
        simp [Nat.le_of_lt (Nat.lt_of_not_le hle)]
      have hpad : padFrame (raw.take FRAME) = raw.take FRAME := by
        unfold padFrame
        simp [hlen]
      simp only [List.flatten_cons, hpad, hk]
      rw [← List.append_assoc, List.take_append_drop]

/-- Truncating the concatenation at the input length recovers the input. -/
theorem reframe_reconstruct_aux (raw : List Nat) :
    (reframe raw).flatten.take raw.length = raw := by
  obtain ⟨k, hk⟩ := reframe_join raw
  rw [hk, List.take_left]

/-- All frames except the last are verbatim slices of the input: their
concatenation is exactly the first `FRAME * (n - 1)` input bytes. -/
theorem reframe_dropLast_flatten (raw : List Nat) :
    (reframe raw).dropLast.flatten = raw.take (FRAME * ((reframe raw).length - 1)) := by
  induction raw using reframe_induction with
  | h0 => simp
  | hstep raw h ih =>
    rw [reframe_cons raw h]
    by_cases hle : raw.length ≤ FRAME
    · have hdrop : raw.drop FRAME = [] := by
        apply List.eq_nil_of_length_eq_zero
        simp [Nat.sub_eq_zero_of_le hle]
      simp [hdrop]
    · have hlt : FRAME < raw.length := Nat.lt_of_not_le hle
      have hdropne : raw.drop FRAME ≠ [] := by
        intro hcon
        have := congrArg List.length hcon
        simp only [List.length_drop, List.length_nil] at this
        omega
      have hrestne : reframe (raw.drop FRAME) ≠ [] := by
        rw [reframe_cons _ hdropne]; simp
      have hlen : (raw.take FRAME).length = FRAME := by
        simp [Nat.le_of_lt hlt]
      have hpad : padFrame (raw.take FRAME) = raw.take FRAME := by
        unfold padFrame; simp [hlen]
      obtain ⟨m, hm⟩ : ∃ m, (reframe (raw.drop FRAME)).length = m + 1 :=
        ⟨(reframe (raw.drop FRAME)).length - 1,
         (Nat.succ_pred_eq_of_pos (List.length_pos.mpr hrestne)).symm⟩
      have hm' : (reframe (raw.drop FRAME)).length - 1 = m := by omega
      rw [List.dropLast_cons_of_ne_nil hrestne, List.flatten_cons, hpad, ih, hm']
      simp only [List.length_cons, hm, Nat.add_sub_cancel]
      rw [show FRAME * (m + 1) = FRAME + FRAME * m from by ring, List.take_add]

/-! ## Lemmas about the close-interrupted send -/

theorem priming_eq (n k : Nat) (m : MediaMsg) :
    (((List.range n).map fun i => attemptedSend k i m)).flatten
      = (List.replicate n m).take k := by
  induction n with
  | zero => simp
  | succ n ih =>
    rw [List.range_succ, List.map_append, List.flatten_append, ih,
        List.replicate_succ', List.take_append_eq_append_take]
    simp only [List.length_replicate]
    congr 1
    simp only [List.map_cons, List.map_nil, List.flatten_cons, List.flatten_nil,
      List.append_nil, attemptedSend]
    by_cases hnk : n < k
    · have : 1 ≤ k - n := by omega
      simp [hnk, List.take_of_length_le, this]
    · have : k - n = 0 := by omega
      simp [hnk, this]

theorem mainLoop_eq (sid : String) (k : Nat) :
    ∀ (fs : List (List Nat)) (step : Nat),
      mainLoopTransmitted k sid fs step
        = (fs.map (mkMediaMsg sid)).take (k - step) := by
  intro fs
  induction fs with
  | nil => intro step; simp [mainLoopTransmitted]
  | cons f fs ih =>
    intro step
    rw [mainLoopTransmitted]
    by_cases hs : step < k
    · have hk : k - step = (k - (step + 1)) + 1 := by omega
      rw [if_pos hs, ih (step + 1), List.map_cons, hk, List.take_succ_cons]
    · have hk : k - step = 0 := by omega
      rw [if_neg hs, List.map_cons, hk, List.take_zero]

/-- The frames actually transmitted are exactly the first `openFor` of the
full frame sequence: sending stops at the frame boundary where the socket
closed, and nothing is transmitted after it. -/
theorem framesTransmitted_eq (openFor : Nat) (sid : String) (mulaw : List Nat) :
    framesTransmitted openFor sid mulaw = (sendAudioMsgs sid mulaw).take openFor := by
  rw [framesTransmitted, sendAudioMsgs, primingTransmitted, priming_eq,
      mainLoop_eq, List.take_append_eq_append_take]
  simp only [List.length_replicate]

/-! ## Lemmas about forwarding and helper handlers -/

theorem map_streamSid_frames (sid : String) (fs : List (List Nat)) :
    ((fs.map (mkMediaMsg sid)).map MediaMsg.streamSid)
      = List.replicate fs.length (some sid) := by
  induction fs with
  | nil => rfl
  | cons f fs ih => simp [ih, List.replicate_succ, mkMediaMsg]

theorem dgForwards_append (l₁ l₂ : List Action) :
    dgForwards (l₁ ++ l₂) = dgForwards l₁ ++ dgForwards l₂ :=
  List.filterMap_append l₁ l₂ isForward

theorem dgForwards_frames (l : List MediaMsg) :
    dgForwards (l.map Action.frame) = [] := by
  induction l with
  | nil => rfl
  | cons m l ih => simpa [dgForwards, List.filterMap_cons, isForward] using ih

theorem dgForwards_greeting (env : GenEnv) (sid : Option String) (wsOpen : Bool) :
    dgForwards (greetingActs env sid wsOpen) = [] := by
  unfold greetingActs
  cases h : ttsResult (env.tts greetingText) with
  | none => rfl
  | some buf =>
    have hf := dgForwards_frames (sendAudio env.convert sid wsOpen (some buf))
    simpa [dgForwards, List.filterMap_cons, isForward] using hf

theorem dgForward_notin_greeting (p : List Nat) (env : GenEnv)
    (sid : Option String) (wsOpen : Bool) :
    Action.dgForward p ∉ greetingActs env sid wsOpen := by
  unfold greetingActs
  cases ttsResult (env.tts greetingText) with
  | none => simp
  | some buf => simp [List.mem_map]

theorem dgForwards_wsStart (env : GenEnv) (s : SessState) (e : WsEvent) :
    dgForwards (wsStart env s e).2 = [] := by
  unfold wsStart
  by_cases hstart : e.event = "start"
  · rw [if_pos hstart]
    have hg := dgForwards_greeting env e.startSid s.wsOpen
    simp only [dgForwards] at hg ⊢
    simp [List.filterMap_cons, List.filterMap_append, isForward, hg]
  · rw [if_neg hstart]
    rfl

theorem wsMedia_sublist (s : SessState) (e : WsEvent) :
    List.Sublist (dgForwards (wsMedia s e)) e.mediaPayload.toList := by
  unfold wsMedia
  by_cases hcond : (e.event = "media" && !s.aiSpeaking && s.dgOpen) = true
  · rw [if_pos hcond]
    cases hp : e.mediaPayload with
    | none => simp [dgForwards]
    | some p =>
      simp [dgForwards, List.filterMap_cons, isForward]
  · rw [if_neg hcond]
    exact List.nil_sublist _

/-- Each carrier event contributes to Deepgram at most its own media
payload. -/
theorem wsHandler_forwards_sublist (env : GenEnv) (s : SessState) (e : WsEvent) :
    List.Sublist (dgForwards (wsHandler env s e).2) e.mediaPayload.toList := by
  rw [wsHandler]
  simp only [dgForwards_append, dgForwards_wsStart, List.nil_append]
  exact wsMedia_sublist _ e

/-- Forwarding preserves arrival order: the forwarded payloads of a whole
session are an order-preserving subsequence of the inbound payloads. -/
theorem collect_forwards_sublist (env : GenEnv) (es : List WsEvent) (s : SessState) :
    List.Sublist (dgForwards (collectSession env s es))
      (es.filterMap WsEvent.mediaPayload) := by
  induction es generalizing s with
  | nil => simp [collectSession, dgForwards]
  | cons e es ih =>
    rw [collectSession, dgForwards_append, List.filterMap_cons]
    have h1 := wsHandler_forwards_sublist env s e
    cases hp : e.mediaPayload with
    | none =>
      rw [hp] at h1
      simp only [Option.toList_none, List.sublist_nil] at h1
      rw [h1, List.nil_append]
      exact ih _
    | some p =>
      rw [hp] at h1
      simp only [Option.toList_some] at h1
      exact List.Sublist.append h1 (ih _)

theorem sendTimes_get (sid : String) (mulaw : List Nat) (i : Nat)
    (h : i < (sendAudioMsgs sid mulaw).length) :
    (sendTimes sid mulaw)[i]? = some (20 * i) := by
  unfold sendTimes
  rw [List.getElem?_map]
  simp [List.getElem?_range, h]

/-! ## Lemmas about interleavings -/

theorem merge_nil_right {α : Type} (xs : List α) : Merge xs [] xs := by
  induction xs with
  | nil => exact Merge.nil
  | cons x xs ih => exact Merge.left ih

theorem merge_prepend {α : Type} (xs ys : List α) : Merge xs ys (ys ++ xs) := by
  induction ys with
  | nil => simpa using merge_nil_right xs
  | cons y ys ih => exact Merge.right ih

/-- The second task's segments can be scheduled as a block after the first
`k` segments of the first task. -/
theorem merge_insert {α : Type} (xs ys : List α) (k : Nat) :
    Merge xs ys (xs.take k ++ ys ++ xs.drop k) := by
  induction k generalizing xs with
  | zero => simpa using merge_prepend xs ys
  | succ k ih =>
    cases xs with
    | nil => simpa using merge_prepend ([] : List α) ys
    | cons x xs => exact Merge.left (ih xs)

theorem merge_sublist_left {α : Type} {xs ys zs : List α}
    (h : Merge xs ys zs) : List.Sublist xs zs := by
  induction h with
  | nil => exact List.Sublist.refl []
  | left _ ih => exact List.Sublist.cons₂ _ ih
  | right _ ih => exact List.Sublist.cons _ ih

theorem merge_sublist_right {α : Type} {xs ys zs : List α}
    (h : Merge xs ys zs) : List.Sublist ys zs := by
  induction h with
  | nil => exact List.Sublist.refl []
  | left _ ih => exact List.Sublist.cons _ ih
  | right _ ih => exact List.Sublist.cons₂ _ ih

theorem sublist_flatten {α : Type} {xs zs : List (List α)}
    (h : List.Sublist xs zs) : List.Sublist xs.flatten zs.flatten := by
  induction h with
  | slnil => exact List.Sublist.refl []
  | cons a _ ih =>
    exact List.Sublist.trans ih (by simpa using List.sublist_append_right a.flatten _)
  | cons₂ a _ ih => simpa using List.Sublist.append_left ih a

/-! ## Lemmas about the carrier handler branches -/

theorem wsMedia_start_nil (st : SessState) (e : WsEvent)
    (hstart : e.event = "start") : wsMedia st e = [] := by
  have hne : ¬(("start" : String) = "media") := by decide
  unfold wsMedia
  rw [hstart]
  simp [hne]

theorem wsMedia_speaking_nil (st : SessState) (e : WsEvent)
    (hspeak : st.aiSpeaking = true) : wsMedia st e = [] := by
  unfold wsMedia
  rw [hspeak]
  simp

theorem wsHandler_start_acts (env : GenEnv) (s : SessState) (e : WsEvent)
    (hstart : e.event = "start") :
    (wsHandler env s e).2
      = Action.setSpeaking true ::
          (greetingActs env e.startSid s.wsOpen ++ [Action.setSpeaking false]) := by
  rw [wsHandler]
  rw [wsMedia_start_nil _ e hstart, List.append_nil]
  unfold wsStart
  rw [if_pos hstart]

theorem dgHandler_pipeline (env : GenEnv) (sid : Option String) (wsOpen : Bool)
    (e : DgEvent) (t : String) (hdec : dgDecision e = some t) :
    dgHandler env sid wsOpen e = (dgPipelineSegs env sid wsOpen t).flatten := by
  unfold dgHandler dgSegments
  rw [hdec]

theorem dgHandler_head_last (env : GenEnv) (sid : Option String) (wsOpen : Bool)
    (e : DgEvent) (t : String) (hdec : dgDecision e = some t) :
    (dgHandler env sid wsOpen e).head? = some (Action.setSpeaking true)
    ∧ (dgHandler env sid wsOpen e).getLast? = some (Action.setSpeaking false) := by
  rw [dgHandler_pipeline env sid wsOpen e t hdec]
  unfold dgPipelineSegs
  cases hg : callGemini (env.gen t) with
  | none => exact ⟨rfl, rfl⟩
  | some reply =>
    dsimp only
    cases htts : ttsResult (env.tts reply) with
    | none => exact ⟨rfl, rfl⟩
    | some buf =>
      dsimp only
      refine ⟨rfl, ?_⟩
      rw [show ([Action.setSpeaking true, Action.genCall t] ::
            [Action.ttsCall reply] ::
              (sendAudioSegs env.convert sid wsOpen buf
                ++ [[Action.setSpeaking false]])).flatten
          = (Action.setSpeaking true :: Action.genCall t :: Action.ttsCall reply ::
              (sendAudioSegs env.convert sid wsOpen buf).flatten)
              ++ [Action.setSpeaking false] from by
        simp [List.flatten_cons, List.flatten_append]]
      exact List.getLast?_concat _

theorem dgForward_notin_wsStart (p : List Nat) (env : GenEnv) (s : SessState)
    (e : WsEvent) : Action.dgForward p ∉ (wsStart env s e).2 := by
  unfold wsStart
  by_cases hstart : e.event = "start"
  · rw [if_pos hstart]
    intro hmem
    rcases List.mem_cons.mp hmem with hc | hmem
    · exact Action.noConfusion hc
    · rcases List.mem_append.mp hmem with hg | hl
      · exact dgForward_notin_greeting p env e.startSid s.wsOpen hg
      · simp at hl
  · rw [if_neg hstart]
    simp

theorem no_frame_without_sid_dg (m : MediaMsg) (env : GenEnv) (wsOpen : Bool)
    (e : DgEvent) : Action.frame m ∉ dgHandler env none wsOpen e := by
  unfold dgHandler dgSegments
  cases hdec : dgDecision e with
  | none => simp
  | some t =>
    dsimp only
    unfold dgPipelineSegs
    cases hg : callGemini (env.gen t) with
    | none => simp
    | some reply =>
      dsimp only
      cases htts : ttsResult (env.tts reply) with
      | none => simp
      | some buf =>
        dsimp only
        have hsegs : sendAudioSegs env.convert none wsOpen buf = [] := rfl
        rw [hsegs]
        simp

theorem no_frame_wsHandler_no_start (m : MediaMsg) (env : GenEnv)
    (s : SessState) (e : WsEvent) (hne : e.event ≠ "start") :
    Action.frame m ∉ (wsHandler env s e).2 := by
  rw [wsHandler]
  have hfst : wsStart env s e = (s, []) := by
    unfold wsStart; rw [if_neg hne]
  rw [hfst]
  intro hmem
  rcases List.mem_append.mp hmem with h1 | h2
  · simp at h1
  · unfold wsMedia at h2
    by_cases hcond : (e.event = "media" && !s.aiSpeaking && s.dgOpen) = true
    · rw [if_pos hcond] at h2
      cases hp : e.mediaPayload with
      | none =>
        rw [hp] at h2
        exact List.not_mem_nil _ h2
      | some p =>
        rw [hp] at h2
        exact Action.noConfusion (List.mem_singleton.mp h2)
    · rw [if_neg hcond] at h2
      exact List.not_mem_nil _ h2

/-! ## Claim C2 -/

/-- C2: for every input byte buffer the reframing loop of `sendAudio`
produces frames of exactly `FRAME = 160` bytes; only the final frame is
padded (the earlier frames concatenate to a verbatim prefix of the input);
concatenating all frames and stripping the final frame's padding (truncating
at the input length) reconstructs the input exactly; and the empty input
yields the empty frame sequence (no error: the function is total). -/
theorem reframe_spec (raw : List Nat) :
    ((reframe raw).all fun f => f.length == FRAME) = true
    ∧ (reframe raw).flatten.take raw.length = raw
    ∧ (reframe raw).dropLast.flatten = raw.take (FRAME * ((reframe raw).length - 1))
    ∧ reframe ([] : List Nat) = [] := by
  refine ⟨?_, reframe_reconstruct_aux raw, reframe_dropLast_flatten raw, reframe_nil⟩
  rw [List.all_eq_true]
  intro f hf
  simpa using reframe_frame_length raw f hf

/-! ## Claim C4 -/

/-- C4: if the carrier socket closes after `openFor` send steps while a
reply is mid-send, the transmitted frames are exactly the first `openFor`
of the full frame sequence — the frame loop stops at the next frame
boundary and nothing further is transmitted on the closed socket — and the
`ws.on("close")` handler closes the Deepgram (transcription) connection.
The frame-loop stop is a function of the socket state alone, so the two
releases are independent of one another. -/
theorem close_stops_send_and_closes_dg (openFor : Nat) (sid : String)
    (mulaw : List Nat) (c : Conns) :
    framesTransmitted openFor sid mulaw = (sendAudioMsgs sid mulaw).take openFor
    ∧ (onWsClose c).dgClosed = true :=
  ⟨framesTransmitted_eq openFor sid mulaw, rfl⟩

/-! ## Claim C8 -/

/-- C8: past its readiness guard, `sendAudio` sends exactly five priming
silence frames (160 bytes of `0xff`, base64-encoded, tagged `outbound`)
before the first audio frame — and with empty converted audio the output is
exactly those five frames. -/
theorem priming_frames_spec (convert : List Nat → List Nat) (sid : String)
    (buf : List Nat) :
    sendAudio convert (some sid) true (some buf)
      = List.replicate 5 (mkMediaMsg sid silenceFrame)
          ++ (reframe (convert buf)).map (mkMediaMsg sid)
    ∧ (sendAudio convert (some sid) true (some buf)).take 5
        = List.replicate 5 (mkMediaMsg sid silenceFrame)
    ∧ sendAudioMsgs sid ([] : List Nat)
        = List.replicate 5 (mkMediaMsg sid silenceFrame)
    ∧ mkMediaMsg sid silenceFrame
        = { event := "media", streamSid := some sid,
            payload := base64Encode (List.replicate 160 0xff),
            track := some "outbound" } := by
  refine ⟨rfl, ?_, by simp [sendAudioMsgs], rfl⟩
  show (sendAudioMsgs sid (convert buf)).take 5 = _
  rw [sendAudioMsgs, List.take_left' (by simp)]

/-! ## Claim C6 -/

/-- C6 counterexample: the `part_000` variant's Gemini `onChunk` callback
sends an outbound media frame that carries no stream identifier at all —
the frame is emitted, not buffered or dropped, for any synthesized chunk. -/
theorem part000_sends_without_sid_cx :
    part000OnChunk (some [0, 1, 2])
      = [{ event := "media", streamSid := none,
           payload := base64Encode [0, 1, 2], track := none }]
    ∧ (part000OnChunk (some [0, 1, 2])).map MediaMsg.streamSid = [none] :=
  ⟨rfl, rfl⟩

/-- C6 amended: in `src/server.js` all outbound media goes through
`sendAudio`, which drops the whole send while `ws.streamSid` is unset, and
every frame it does emit carries the recorded stream identifier; the
`part_000` variant's `onChunk` callback, however, sends frames with no
stream identifier. -/
theorem sendAudio_requires_sid (convert : List Nat → List Nat) (wsOpen : Bool)
    (buffer : Option (List Nat)) (sid : String) (mulaw : List Nat) :
    sendAudio convert none wsOpen buffer = []
    ∧ (sendAudioMsgs sid mulaw).map MediaMsg.streamSid
        = List.replicate (5 + (reframe mulaw).length) (some sid) := by
  refine ⟨rfl, ?_⟩
  rw [sendAudioMsgs, List.map_append, map_streamSid_frames, List.map_replicate,
      List.replicate_add]
  rfl

/-! ## Claim C3 -/

/-- C3 counterexample: two final events with identical non-empty text,
200 ms apart — well inside the claimed ~900 ms debounce window — are BOTH
acted upon: the handler reads no clock and keeps no previous-text state, so
two utterances are emitted, not exactly one. -/
theorem duplicate_finals_not_suppressed_cx :
    ([ev3a, ev3b].all fun e => e.isFinal && (e.transcript == some "hello")) = true
    ∧ ev3b.atMs - ev3a.atMs ≤ 900
    ∧ utterances [ev3a, ev3b] = ["hello", "hello"]
    ∧ (utterances [ev3a, ev3b]).length ≠ 1 :=
  ⟨by decide, by decide, by decide, by decide⟩

/-- C3 amended: there is no debounce and no duplicate suppression — every
final event with non-empty trimmed text triggers exactly one pipeline
invocation, so `n` identical final events yield `n` utterances, each on the
trimmed text. -/
theorem final_events_each_acted (t : String) (es : List DgEvent)
    (hne : jsTrim t ≠ "")
    (hall : ∀ e ∈ es, e.isFinal = true ∧ e.transcript = some t) :
    utterances es = List.replicate es.length (jsTrim t) := by
  induction es with
  | nil => rfl
  | cons e es ih =>
    obtain ⟨hf, ht⟩ := hall e (List.mem_cons_self e es)
    have hd : dgDecision e = some (jsTrim t) := by
      unfold dgDecision
      rw [hf, ht]
      simp [hne]
    have hrest := ih fun e' he' => hall e' (List.mem_cons_of_mem _ he')
    rw [utterances, List.filterMap_cons, hd]
    rw [utterances] at hrest
    simp [hrest, List.replicate_succ]

theorem final_events_each_acted_witness :
    utterances [ev3a, ev3b] = List.replicate ([ev3a, ev3b].length) (jsTrim "hello") :=
  final_events_each_acted "hello" [ev3a, ev3b] (by decide) (by decide)

/-! ## Claim C5 -/

/-- C5: when generation fails (network error, caught to `null`) or yields
empty/absent text (`|| null`), the handler makes no synthesis call and
sends no frames: its entire action sequence is flag-up, the generation
call, flag-down — the session returns to listening and nothing fatal
happens (the handler performs no teardown action of any kind). -/
theorem gen_failure_no_tts_no_frames (env : GenEnv) (sid : Option String)
    (wsOpen : Bool) (e : DgEvent) (t : String) (r : String) (m : MediaMsg)
    (hdec : dgDecision e = some t)
    (hgen : callGemini (env.gen t) = none) :
    dgHandler env sid wsOpen e
      = [Action.setSpeaking true, Action.genCall t, Action.setSpeaking false]
    ∧ Action.ttsCall r ∉ dgHandler env sid wsOpen e
    ∧ Action.frame m ∉ dgHandler env sid wsOpen e := by
  have hmain : dgHandler env sid wsOpen e
      = [Action.setSpeaking true, Action.genCall t, Action.setSpeaking false] := by
    unfold dgHandler dgSegments
    rw [hdec]
    show (dgPipelineSegs env sid wsOpen t).flatten = _
    unfold dgPipelineSegs
    rw [hgen]
    rfl
  refine ⟨hmain, ?_, ?_⟩ <;> rw [hmain] <;> simp

theorem gen_failure_no_tts_no_frames_witness :
    dgHandler env5 (some "SID1") true ev5
      = [Action.setSpeaking true, Action.genCall "hi", Action.setSpeaking false]
    ∧ Action.ttsCall "x" ∉ dgHandler env5 (some "SID1") true ev5
    ∧ Action.frame (mkMediaMsg "SID1" silenceFrame) ∉ dgHandler env5 (some "SID1") true ev5 :=
  gen_failure_no_tts_no_frames env5 (some "SID1") true ev5 "hi" "x"
    (mkMediaMsg "SID1" silenceFrame) (by decide) (by decide)

/-! ## Claim C7 -/

/-- C7: the outbound frames of one reply are sent strictly in reframed
order — dropping the five priming frames leaves exactly
`(reframe mulaw).map (mkMediaMsg sid)` in order — frame `i` goes out at
time `20·i` ms so consecutive sends are 20 ms (one frame's play duration)
apart; and the inbound media payloads forwarded to Deepgram are an
order-preserving subsequence of the arrival order (no reordering). -/
theorem frames_ordered_paced_inbound_ordered (sid : String) (mulaw : List Nat)
    (i : Nat) (env : GenEnv) (s : SessState) (es : List WsEvent)
    (h : i + 1 < (sendAudioMsgs sid mulaw).length) :
    (sendAudioMsgs sid mulaw).drop 5 = (reframe mulaw).map (mkMediaMsg sid)
    ∧ (sendTimes sid mulaw)[i]? = some (20 * i)
    ∧ (sendTimes sid mulaw)[i + 1]? = some (20 * i + 20)
    ∧ List.Sublist (dgForwards (collectSession env s es))
        (es.filterMap WsEvent.mediaPayload) := by
  refine ⟨?_, sendTimes_get sid mulaw i (Nat.lt_of_succ_lt h), ?_,
    collect_forwards_sublist env es s⟩
  · rw [sendAudioMsgs, List.drop_left' (by simp)]
  · rw [sendTimes_get sid mulaw (i + 1) h]
    simp [Nat.mul_succ]

theorem frames_ordered_paced_inbound_ordered_witness :
    (sendAudioMsgs "SID1" [1, 2, 3]).drop 5
        = (reframe [1, 2, 3]).map (mkMediaMsg "SID1")
    ∧ (sendTimes "SID1" [1, 2, 3])[0]? = some (20 * 0)
    ∧ (sendTimes "SID1" [1, 2, 3])[0 + 1]? = some (20 * 0 + 20)
    ∧ List.Sublist (dgForwards (collectSession env5 sess0 []))
        (([] : List WsEvent).filterMap WsEvent.mediaPayload) :=
  frames_ordered_paced_inbound_ordered "SID1" [1, 2, 3] 0 env5 sess0 [] (by decide)

/-! ## Claim C9 -/

/-- C9: while `aiSpeaking` is set, inbound carrier media is never forwarded
to the transcription connection — barge-in is disabled and the payload is
silently dropped; the flag covers both the greeting (the `start` branch's
action sequence opens with flag-up and closes with flag-down around the
greeting) and the whole generation–synthesis–send pipeline of a reply
(whose action sequence likewise opens with flag-up and closes with
flag-down). -/
theorem no_forward_while_speaking (env : GenEnv) (s : SessState) (e : WsEvent)
    (p : List Nat) (env2 : GenEnv) (s2 : SessState) (e2 : WsEvent)
    (env3 : GenEnv) (sid3 : Option String) (wsOpen3 : Bool) (e3 : DgEvent)
    (t3 : String)
    (hspeak : s.aiSpeaking = true) (hstart : e2.event = "start")
    (hdec : dgDecision e3 = some t3) :
    Action.dgForward p ∉ (wsHandler env s e).2
    ∧ (wsHandler env2 s2 e2).2.head? = some (Action.setSpeaking true)
    ∧ (wsHandler env2 s2 e2).2.getLast? = some (Action.setSpeaking false)
    ∧ (dgHandler env3 sid3 wsOpen3 e3).head? = some (Action.setSpeaking true)
    ∧ (dgHandler env3 sid3 wsOpen3 e3).getLast? = some (Action.setSpeaking false) := by
  refine ⟨?_, ?_, ?_,
    (dgHandler_head_last env3 sid3 wsOpen3 e3 t3 hdec).1,
    (dgHandler_head_last env3 sid3 wsOpen3 e3 t3 hdec).2⟩
  · rw [wsHandler]
    intro hmem
    rcases List.mem_append.mp hmem with h1 | h2
    · exact dgForward_notin_wsStart p env s e h1
    · by_cases he : e.event = "start"
      · rw [wsMedia_start_nil _ e he] at h2
        simp at h2
      · have hfst : (wsStart env s e).1 = s := by
          unfold wsStart; rw [if_neg he]
        rw [hfst, wsMedia_speaking_nil s e hspeak] at h2
        simp at h2
  · rw [wsHandler_start_acts env2 s2 e2 hstart]
    rfl
  · rw [wsHandler_start_acts env2 s2 e2 hstart, ← List.cons_append]
    exact List.getLast?_concat _

theorem no_forward_while_speaking_witness :
    Action.dgForward [9] ∉ (wsHandler env9 sessSpeaking evMedia).2
    ∧ (wsHandler env9 sess0 evStart).2.head? = some (Action.setSpeaking true)
    ∧ (wsHandler env9 sess0 evStart).2.getLast? = some (Action.setSpeaking false)
    ∧ (dgHandler env9 (some "SID1") true ev5).head? = some (Action.setSpeaking true)
    ∧ (dgHandler env9 (some "SID1") true ev5).getLast? = some (Action.setSpeaking false) :=
  no_forward_while_speaking env9 sessSpeaking evMedia [9] env9 sess0 evStart
    env9 (some "SID1") true ev5 "hi" rfl rfl (by decide)

/-! ## Claim C10 -/

/-- C10: on the carrier's `start` message the session records the stream
identifier (`ws.streamSid = data.start?.streamSid`) and then synthesizes
and sends the fixed greeting "Hello! I am ready to chat." (flag-up, the
greeting synthesis call and its frames addressed to the new identifier,
flag-down); no handler can emit a frame before the identifier is known
(the `sendAudio` guard drops everything while `streamSid` is unset, and
only the `start` branch ever sets it), so the greeting is the agent's
first speech; and media arriving while the greeting holds `aiSpeaking`
is dropped (claim C9's gate). -/
theorem greeting_on_start (env : GenEnv) (s : SessState) (e : WsEvent)
    (envx : GenEnv) (wsOpenx : Bool) (ex : DgEvent) (mx : MediaMsg)
    (envy : GenEnv) (sy : SessState) (ey : WsEvent) (my : MediaMsg)
    (hstart : e.event = "start") (hey : ey.event ≠ "start") :
    (wsHandler env s e).1.streamSid = e.startSid
    ∧ (wsHandler env s e).2
        = Action.setSpeaking true ::
            (greetingActs env e.startSid s.wsOpen ++ [Action.setSpeaking false])
    ∧ (greetingActs env e.startSid s.wsOpen).head? = some (Action.ttsCall greetingText)
    ∧ Action.frame mx ∉ dgHandler envx none wsOpenx ex
    ∧ Action.frame my ∉ (wsHandler envy sy ey).2
    ∧ greetingText = "Hello! I am ready to chat." := by
  refine ⟨?_, wsHandler_start_acts env s e hstart, rfl,
    no_frame_without_sid_dg mx envx wsOpenx ex,
    no_frame_wsHandler_no_start my envy sy ey hey, rfl⟩
  rw [wsHandler]
  unfold wsStart
  rw [if_pos hstart]

theorem greeting_on_start_witness :
    (wsHandler env9 sess0 evStart).1.streamSid = evStart.startSid
    ∧ (wsHandler env9 sess0 evStart).2
        = Action.setSpeaking true ::
            (greetingActs env9 evStart.startSid sess0.wsOpen
              ++ [Action.setSpeaking false])
    ∧ (greetingActs env9 evStart.startSid sess0.wsOpen).head?
        = some (Action.ttsCall greetingText)
    ∧ Action.frame (mkMediaMsg "SID1" silenceFrame) ∉ dgHandler env9 none true ev5
    ∧ Action.frame (mkMediaMsg "SID1" silenceFrame) ∉ (wsHandler env9 sess0 evMedia).2
    ∧ greetingText = "Hello! I am ready to chat." :=
  greeting_on_start env9 sess0 evStart env9 true ev5 (mkMediaMsg "SID1" silenceFrame)
    env9 sess0 evMedia (mkMediaMsg "SID1" silenceFrame) rfl (by decide)

/-! ## Claim C1 -/

/-- C1 counterexample: a valid interleaving of the two handler invocations
in which utterance B's pipeline begins (its generation call is action 3)
while reply A is in flight (A's generation call is action 1, none of A's
frames sent yet), and A's audio frame is nevertheless sent afterwards
(action 18) — the code has no cancellation token and never stops the old
reply's sends, so two replies are in flight simultaneously and the old
reply's remaining frames are still sent. -/
theorem reply_not_cancelled_cx :
    Merge segsA segsB trC1
    ∧ trC1.flatten[1]? = some (Action.genCall "first")
    ∧ trC1.flatten[3]? = some (Action.genCall "second")
    ∧ trC1.flatten[18]? = some (Action.frame (mkMediaMsg "SID1" bufA))
    ∧ Action.frame (mkMediaMsg "SID1" bufA) ∉ segsB.flatten :=
  ⟨merge_insert segsA segsB 1, by decide, by decide, by decide, by decide⟩

/-- C1 amended: there is no cancellation — in every valid event-loop
interleaving of the two handler invocations, the complete action sequence
of EACH handler (including every frame of the older reply) occurs in
order: a new completed utterance does not cancel the in-flight reply, and
the old reply's remaining frames are all still sent (interleaved with the
new reply's). -/
theorem inflight_reply_frames_all_sent (env : GenEnv) (sid : Option String)
    (wsOpen : Bool) (eA eB : DgEvent) (zs : List (List Action))
    (hm : Merge (dgSegments env sid wsOpen eA) (dgSegments env sid wsOpen eB) zs) :
    List.Sublist (dgHandler env sid wsOpen eA) zs.flatten
    ∧ List.Sublist (dgHandler env sid wsOpen eB) zs.flatten :=
  ⟨sublist_flatten (merge_sublist_left hm),
   sublist_flatten (merge_sublist_right hm)⟩

theorem inflight_reply_frames_all_sent_witness :
    List.Sublist (dgHandler envC1 (some "SID1") true evA) trC1.flatten
    ∧ List.Sublist (dgHandler envC1 (some "SID1") true evB) trC1.flatten :=
  inflight_reply_frames_all_sent envC1 (some "SID1") true evA evB trC1
    (merge_insert segsA segsB 1)

end AICall
